import Mathlib

/-!
# Weather Globe: a shallow embedding of `script.js`

The browser script is embedded as pure functions over an explicit state:
the `AppState` object, the cached DOM `Elements`, and the list of network
calls that have been issued and have not settled yet.  Everything the script
reads from the platform (connectivity flag, clock, geolocation support and the
two number/string conversions whose digit algorithms are floating-point work)
is collected in `Platform` and passed explicitly.

Conventions
* a JavaScript string is a Lean `String` (a sequence of Unicode scalar values);
  `length` counts UTF-16 code units as JavaScript does;
* a finite JavaScript number is the exact decimal `m / 10 ^ k`; every double
  has such a form, and `+0` and `-0` are identified (the script cannot tell
  them apart: it only tests truthiness, rounds and prints);
* `console.log` / `console.error` output is not part of the state.
-/

namespace WeatherGlobe

/-! ## JavaScript values -/

/-- JavaScript numbers: the three non-finite values and the finite decimals
`m / 10 ^ k`. -/
inductive JsNum where
  | nan
  | posInf
  | negInf
  | fin (m : Int) (k : Nat)
  deriving DecidableEq, Repr

/-- JavaScript values as they come out of `JSON.parse`, plus `undefined`
(the result of reading a property that is not there). -/
inductive JsValue where
  | undefined
  | null
  | bool (b : Bool)
  | num (n : JsNum)
  | str (s : String)
  | arr (items : List JsValue)
  | obj (fields : List (String × JsValue))

/-- What the script reads from the browser rather than from its own state. -/
structure Platform where
  /-- The flag `navigator.onLine`. -/
  onLine : Bool
  /-- Whether `navigator.geolocation` exists. -/
  hasGeolocation : Bool
  /-- The text `new Date().toISOString()` evaluates to. -/
  now : String
  /-- The digit string of `Number::toString` for a finite value that is not an
  integer of magnitude at most `2 ^ 53`. -/
  numberDigits : Int → Nat → String
  /-- The conversion `StringToNumber` used by `ToNumber` on strings. -/
  stringToNumber : String → JsNum

/-- Decimal digit character of `d < 10`. -/
def digitChar (d : Nat) : Char :=
  match d with
  | 0 => '0' | 1 => '1' | 2 => '2' | 3 => '3' | 4 => '4'
  | 5 => '5' | 6 => '6' | 7 => '7' | 8 => '8' | _ => '9'

/-- Decimal digits of `n`, most significant first; `fuel` bounds the number of
digits produced. -/
def natDigitsAux : Nat → Nat → List Char → List Char
  | 0, _, acc => acc
  | fuel + 1, n, acc =>
    if n < 10 then digitChar n :: acc
    else natDigitsAux fuel (n / 10) (digitChar (n % 10) :: acc)

/-- Decimal representation of a natural number. -/
def natRepr (n : Nat) : String :=
  String.mk (natDigitsAux (n + 1) n [])

/-- Decimal representation of an integer, with a leading `-` when negative. -/
def intRepr (z : Int) : String :=
  match z with
  | Int.ofNat n => natRepr n
  | Int.negSucc n => "-" ++ natRepr (n + 1)

/-- The largest magnitude up to which every integer is a double and prints as
its decimal expansion: `2 ^ 53`. -/
def MAX_SAFE : Int := 9007199254740992

/-- The operation `Number::toString` (radix 10). -/
def numberToString (P : Platform) : JsNum → String
  | .nan => "NaN"
  | .posInf => "Infinity"
  | .negInf => "-Infinity"
  | .fin m k =>
    if m % (10 ^ k : Int) = 0 ∧ - MAX_SAFE ≤ m / (10 ^ k : Int) ∧ m / (10 ^ k : Int) ≤ MAX_SAFE then
      intRepr (m / (10 ^ k : Int))
    else P.numberDigits m k

/-- JavaScript truthiness (`ToBoolean`). -/
def truthy : JsValue → Bool
  | .undefined => false
  | .null => false
  | .bool b => b
  | .num .nan => false
  | .num (.fin m _) => m != 0
  | .num _ => true
  | .str s => s != ""
  | .arr _ => true
  | .obj _ => true

/-- Whether a value is `null` or `undefined`: reading a property of such a
value throws a `TypeError`. -/
def isNullish : JsValue → Bool
  | .undefined => true
  | .null => true
  | _ => false

/-- First binding of `key` in a field list. -/
def lookupField (key : String) : List (String × JsValue) → JsValue
  | [] => .undefined
  | (k, v) :: rest => if k = key then v else lookupField key rest

/-- Element of an array whose canonical index string is `key`, counting from
index `i`. -/
def lookupIndex (key : String) : Nat → List JsValue → JsValue
  | _, [] => .undefined
  | i, v :: rest => if natRepr i = key then v else lookupIndex key (i + 1) rest

/-- Number of UTF-16 code units of a string: JavaScript's `length`. -/
def jsLength (s : String) : Nat :=
  (s.data.map (fun c => if c.toNat < 65536 then 1 else 2)).sum

/-- The property read `v[key]` for a value that is not nullish (callers test
`isNullish` first, where JavaScript throws).  Own properties only: none of the
names the script reads is defined on a built-in prototype.  Indexing a string
is modelled for index `0`, which is all the script uses: the result is the
first character (a non-empty string, like the first code unit). -/
def getProp (v : JsValue) (key : String) : JsValue :=
  match v with
  | .obj fields => lookupField key fields
  | .arr items =>
    if key = "length" then .num (.fin items.length 0) else lookupIndex key 0 items
  | .str s =>
    if key = "length" then .num (.fin (jsLength s) 0)
    else if key = "0" then
      match s.data with
      | [] => .undefined
      | c :: _ => .str (String.singleton c)
    else .undefined
  | _ => .undefined

mutual
/-- The conversion `ToString` on values, as used by template literals. -/
def toStr (P : Platform) : JsValue → String
  | .undefined => "undefined"
  | .null => "null"
  | .bool b => if b then "true" else "false"
  | .num n => numberToString P n
  | .str s => s
  | .arr items => joinItems P items
  | .obj _ => "[object Object]"
termination_by structural v => v
/-- The method `Array.prototype.join` with the default separator: `null` and
`undefined` elements print as the empty string. -/
def joinItems (P : Platform) : List JsValue → String
  | [] => ""
  | x :: rest =>
    (match x with
      | .undefined => ""
      | .null => ""
      | v => toStr P v)
    ++ (match rest with
      | [] => ""
      | _ => ",")
    ++ joinItems P rest
termination_by structural l => l
end

/-- The conversion `ToNumber`. -/
def toNumber (P : Platform) : JsValue → JsNum
  | .undefined => .nan
  | .null => .fin 0 0
  | .bool b => if b then .fin 1 0 else .fin 0 0
  | .num n => n
  | .str s => P.stringToNumber s
  | .arr items => P.stringToNumber (joinItems P items)
  | .obj _ => .nan

/-- The function `Math.round`: the integer nearest to the argument, ties going
towards positive infinity, that is `floor (x + 1/2)`. -/
def mathRound : JsNum → JsNum
  | .fin m k => .fin (Int.fdiv (2 * m + (10 ^ k : Int)) (2 * (10 ^ k : Int))) 0
  | n => n

/-- The expression `a || b`. -/
def jsOr (a b : JsValue) : JsValue :=
  if truthy a then a else b

/-- The optional read `v?.key`. -/
def optChain (v : JsValue) (key : String) : JsValue :=
  if isNullish v then .undefined else getProp v key

/-! ## Strings: `trim`, `encodeURIComponent`, and the query serialiser -/

/-- ECMAScript `WhiteSpace` and `LineTerminator` code points, the characters
`String.prototype.trim` strips. -/
def isJsWhitespace (c : Char) : Bool :=
  let n := c.toNat
  n = 9 || n = 10 || n = 11 || n = 12 || n = 13 || n = 32 || n = 160 || n = 5760
    || (8192 ≤ n && n ≤ 8202) || n = 8232 || n = 8233 || n = 8239 || n = 8287
    || n = 12288 || n = 65279

/-- The method `String.prototype.trim`. -/
def jsTrim (s : String) : String :=
  String.mk ((s.data.dropWhile isJsWhitespace).reverse.dropWhile isJsWhitespace).reverse

/-- Upper-case hexadecimal digit of `d < 16`. -/
def hexChar (d : Nat) : Char :=
  match d with
  | 10 => 'A' | 11 => 'B' | 12 => 'C' | 13 => 'D' | 14 => 'E' | 15 => 'F'
  | n => digitChar n

/-- The escape `%XX` of one byte. -/
def percentByte (b : Nat) : List Char :=
  ['%', hexChar (b / 16), hexChar (b % 16)]

/-- UTF-8 encoding of a code point. -/
def utf8Bytes (n : Nat) : List Nat :=
  if n < 128 then [n]
  else if n < 2048 then [192 + n / 64, 128 + n % 64]
  else if n < 65536 then [224 + n / 4096, 128 + (n / 64) % 64, 128 + n % 64]
  else [240 + n / 262144, 128 + (n / 4096) % 64, 128 + (n / 64) % 64, 128 + n % 64]

/-- ASCII letters and digits. -/
def isAsciiAlnum (n : Nat) : Bool :=
  (48 ≤ n && n ≤ 57) || (65 ≤ n && n ≤ 90) || (97 ≤ n && n ≤ 122)

/-- Characters `encodeURIComponent` leaves alone: letters, digits and
`- _ . ! ~ * ' ( )`. -/
def isUriUnreserved (n : Nat) : Bool :=
  isAsciiAlnum n || n = 45 || n = 95 || n = 46 || n = 33 || n = 126 || n = 42
    || n = 39 || n = 40 || n = 41

/-- The function `encodeURIComponent` (on well-formed strings, where it does
not throw). -/
def encodeURIComponent (s : String) : String :=
  String.mk (s.data.flatMap (fun c =>
    if isUriUnreserved c.toNat then [c] else (utf8Bytes c.toNat).flatMap percentByte))

/-- One byte under the `application/x-www-form-urlencoded` serialiser: letters,
digits and `* - . _` are kept, a space becomes `+`, anything else is escaped. -/
def formByte (b : Nat) : List Char :=
  if isAsciiAlnum b || b = 42 || b = 45 || b = 46 || b = 95 then [Char.ofNat b]
  else if b = 32 then ['+']
  else percentByte b

/-- Serialisation of a name or a value by `URLSearchParams`. -/
def formEncode (s : String) : String :=
  String.mk (s.data.flatMap (fun c => (utf8Bytes c.toNat).flatMap formByte))

/-- Serialisation of a list of name-value pairs: `name=value` joined by `&`. -/
def serializeParams : List (String × String) → String
  | [] => ""
  | [(n, v)] => formEncode n ++ "=" ++ formEncode v
  | (n, v) :: rest => formEncode n ++ "=" ++ formEncode v ++ "&" ++ serializeParams rest

/-! ## Configuration -/

/-- The field `CONFIG.API_KEY`. -/
def API_KEY : String := "6e96f2d6545ae9c1f6c3fb8856b238a6"
/-- The field `CONFIG.BASE_URL`. -/
def BASE_URL : String := "https://api.openweathermap.org/data/2.5/weather"
/-- The field `CONFIG.ICON_BASE_URL`. -/
def ICON_BASE_URL : String := "https://openweathermap.org/img/wn/"
/-- The field `CONFIG.DEFAULT_UNITS`. -/
def DEFAULT_UNITS : String := "imperial"
/-- The field `CONFIG.REQUEST_TIMEOUT`, in milliseconds. -/
def REQUEST_TIMEOUT : Nat := 10000

/-- The loop of `buildWeatherUrl`: arguments are taken in pairs, a trailing
unpaired argument is dropped. -/
def pairParams : List String → List (String × String)
  | n :: v :: rest => (n, v) :: pairParams rest
  | _ => []

/-- The function `buildWeatherUrl(...params)`: the base URL (which has no query
of its own), then the paired parameters, then `units` and `appid`. -/
def buildWeatherUrl (params : List String) : String :=
  BASE_URL ++ "?" ++
    serializeParams (pairParams params ++ [("units", DEFAULT_UNITS), ("appid", API_KEY)])

/-! ## State -/

/-- An entry of `AppState.errors`. -/
structure ErrorLogEntry where
  message : String
  timestamp : String
  deriving DecidableEq, Repr

/-- The object `AppState`. -/
structure AppState where
  isLoading : Bool
  lastSearchCity : String
  requestCount : Nat
  errors : List ErrorLogEntry
  deriving DecidableEq, Repr

/-- The DOM behind the cached `Elements`: the value of the input, whether each
of the four toggled elements carries the class `show`, and the text and
attributes the script writes. -/
structure Elements where
  cityInput : String
  spinnerShown : Bool
  loadingShown : Bool
  errorShown : Bool
  containerShown : Bool
  errorText : String
  locationName : String
  iconSrc : String
  /-- The `alt` attribute of the icon, `none` when the attribute is absent. -/
  iconAlt : Option String
  temperature : String
  weatherDescription : String
  feelsLike : String
  humidity : String
  windSpeed : String
  pressure : String
  deriving DecidableEq, Repr

/-- A network call issued by `$.getJSON` inside `makeWeatherRequest` whose race
against the timer has not been settled yet. -/
structure PendingRequest where
  url : String
  requestType : String
  deriving DecidableEq, Repr

/-- The whole state the script acts on. -/
structure St where
  app : AppState
  el : Elements
  /-- Calls in flight, oldest first. -/
  pending : List PendingRequest
  /-- Outstanding `getCurrentPosition` calls. -/
  geoPending : Nat
  /-- Scheduled `setTimeout` callbacks that add `show` to the container. -/
  showTimers : Nat
  deriving DecidableEq, Repr

/-! ## Messages -/

def MSG_EMPTY : String := "Please enter a city name"
def MSG_TOO_SHORT : String := "City name must be at least 2 characters long"
def MSG_TOO_LONG : String := "City name is too long"
def MSG_DISPLAY : String := "Error displaying weather information. Please try again."
def MSG_GENERIC : String := "Unable to fetch weather data. Please try again later."
def MSG_TIMEOUT : String :=
  "Request timed out. Please check your internet connection and try again."
def MSG_NOT_FOUND : String := "City not found. Please check the spelling and try again."
def MSG_API_KEY : String := "API key error. Please check your API configuration."
def MSG_RATE : String := "Too many requests. Please wait a moment and try again."
def MSG_UNAVAILABLE : String :=
  "Weather service is temporarily unavailable. Please try again later."
def MSG_OFFLINE : String := "No internet connection. Please check your network and try again."
def MSG_UNEXPECTED : String := "An unexpected error occurred. Please refresh the page."
def MSG_NO_GEO : String := "Geolocation is not supported by this browser."
def MSG_GEO_DENIED : String := "Location access denied. Please search for a city manually."
def MSG_GEO_UNAVAILABLE : String :=
  "Location information unavailable. Please search for a city manually."
def MSG_GEO_TIMEOUT : String := "Location request timed out. Please search for a city manually."
def MSG_GEO_DEFAULT : String :=
  "An unknown location error occurred. Please search for a city manually."

/-! ## Loading and error display -/

/-- The function `showLoading`. -/
def showLoading (st : St) : St :=
  { st with
    app := { st.app with isLoading := true }
    el := { st.el with
      spinnerShown := true, loadingShown := true, errorShown := false, containerShown := false } }

/-- The function `hideLoading`. -/
def hideLoading (st : St) : St :=
  { st with
    app := { st.app with isLoading := false }
    el := { st.el with spinnerShown := false, loadingShown := false } }

/-- The function `showError`. -/
def showError (P : Platform) (message : String) (st : St) : St :=
  let st1 := hideLoading st
  { st1 with
    app := { st1.app with errors := st1.app.errors ++ [⟨message, P.now⟩] }
    el := { st1.el with errorText := message, errorShown := true, containerShown := false } }

/-- The function `hideError`. -/
def hideError (st : St) : St :=
  { st with el := { st.el with errorShown := false } }

/-! ## Rendering a payload -/

/-- The negation of the guard of `displayWeather`:
`data && data.weather && data.weather[0] && data.main`.  Each read happens
only when the value read from is truthy, hence not nullish. -/
def passesValidation (data : JsValue) : Bool :=
  truthy data && truthy (getProp data "weather")
    && truthy (getProp (getProp data "weather") "0") && truthy (getProp data "main")

/-- The setter `.text(value)` of jQuery: `undefined` makes the call a no-op,
`null` empties the text, anything else is written through `ToString`. -/
def jqText (P : Platform) (value : JsValue) (old : String) : String :=
  match value with
  | .undefined => old
  | .null => ""
  | v => toStr P v

/-- The setter `.attr(name, value)` of jQuery: `undefined` makes the call a
no-op, `null` removes the attribute, anything else is written through
`ToString`. -/
def jqAttr (P : Platform) (value : JsValue) (old : Option String) : Option String :=
  match value with
  | .undefined => old
  | .null => none
  | v => some (toStr P v)

/-- The writes of `displayWeather`, from the computation of the icon URL to the
scheduling of the reveal of the container, for a payload that has passed the
guard and whose `sys` block can be read. -/
def renderWeather (P : Platform) (data : JsValue) (st1 : St) : St :=
  let w0 := getProp (getProp data "weather") "0"
  let main := getProp data "main"
  let iconUrl := ICON_BASE_URL ++ toStr P (getProp w0 "icon") ++ "@2x.png"
  let temp := mathRound (toNumber P (getProp main "temp"))
  let feelsLike := mathRound (toNumber P (getProp main "feels_like"))
  let description := getProp w0 "description"
  { st1 with
    el := { st1.el with
      locationName :=
        toStr P (getProp data "name") ++ ", "
          ++ toStr P (getProp (getProp data "sys") "country")
      iconSrc := iconUrl
      iconAlt := jqAttr P description st1.el.iconAlt
      temperature := numberToString P temp ++ "°F"
      weatherDescription := jqText P description st1.el.weatherDescription
      feelsLike := numberToString P feelsLike ++ "°F"
      humidity := toStr P (getProp main "humidity") ++ "%"
      windSpeed :=
        numberToString P
          (mathRound (toNumber P
            (jsOr (optChain (getProp data "wind") "speed") (.num (.fin 0 0))))) ++ " mph"
      pressure := toStr P (getProp main "pressure") ++ " hPa" }
    showTimers := st1.showTimers + 1 }

/-- The function `displayWeather`.  The `try` block throws either at the guard
or when `data.sys.country` is read from a nullish `data.sys`; both points come
before the first write, and the `catch` clause reports `MSG_DISPLAY`. -/
def displayWeather (P : Platform) (data : JsValue) (st : St) : St :=
  let st1 := hideError (hideLoading st)
  if !passesValidation data then showError P MSG_DISPLAY st1
  else if isNullish (getProp data "sys") then showError P MSG_DISPLAY st1
  else renderWeather P data st1

/-! ## Failures and their messages -/

/-- The HTTP response a failed `jqXHR` carries: its status, and the parsed
JSON body (`undefined` when the body was not JSON). -/
structure HttpResponse where
  status : Nat
  responseJSON : JsValue

/-- What the `catch` handler of `makeWeatherRequest` can receive: an `Error`
object with its message (the timer's rejection, or an exception thrown in the
`then` handler), or the `jqXHR` of a failed call, with or without an HTTP
response (without one its `status` is `0` and it has no `responseJSON`). -/
inductive Failure where
  | error (message : String)
  | jqXHR (response : Option HttpResponse)

/-- The read `error.message === 'Request timeout'`. -/
def Failure.isTimeout : Failure → Bool
  | .error m => m = "Request timeout"
  | .jqXHR _ => false

/-- The read `error.responseJSON`. -/
def Failure.responseJSON : Failure → JsValue
  | .jqXHR (some r) => r.responseJSON
  | _ => .undefined

/-- The read `error.status` as a number, `none` when it is `undefined`. -/
def Failure.status : Failure → Option Nat
  | .error _ => none
  | .jqXHR none => some 0
  | .jqXHR (some r) => some r.status

/-- Whether the failure carries an HTTP status. -/
def Failure.hasHttpStatus : Failure → Bool
  | .jqXHR (some _) => true
  | _ => false

/-- The `switch (error.status)` of `handleApiError`, starting from the default
message. -/
def statusMessage (status : Option Nat) : String :=
  match status with
  | some 404 => MSG_NOT_FOUND
  | some 401 => MSG_API_KEY
  | some 429 => MSG_RATE
  | some 500 => MSG_UNAVAILABLE
  | some 502 => MSG_UNAVAILABLE
  | some 503 => MSG_UNAVAILABLE
  | _ => MSG_GENERIC

/-- The value of `errorMessage` at the end of `handleApiError`. -/
def apiErrorMessage (P : Platform) (error : Failure) : String :=
  if error.isTimeout then MSG_TIMEOUT
  else if truthy error.responseJSON then statusMessage error.status
  else if !P.onLine then MSG_OFFLINE
  else MSG_GENERIC

/-- The function `handleApiError`. -/
def handleApiError (P : Platform) (error : Failure) (st : St) : St :=
  showError P (apiErrorMessage P error) st

/-! ## Requests -/

/-- The function `makeWeatherRequest` up to the point where it returns: the
call is issued and its race against the timer is pending. -/
def makeWeatherRequest (url requestType : String) (st : St) : St :=
  { st with pending := st.pending ++ [⟨url, requestType⟩] }

/-- The function `searchWeather`. -/
def searchWeather (P : Platform) (st : St) : St :=
  let city := jsTrim st.el.cityInput
  if city = "" then showError P MSG_EMPTY st
  else if jsLength city < 2 then showError P MSG_TOO_SHORT st
  else if jsLength city > 100 then showError P MSG_TOO_LONG st
  else if city = st.app.lastSearchCity && st.app.isLoading then st
  else
    let st1 : St :=
      { st with app := { st.app with lastSearchCity := city,
                                     requestCount := st.app.requestCount + 1 } }
    makeWeatherRequest (buildWeatherUrl ["q", encodeURIComponent city]) "city search"
      (showLoading st1)

/-- The function `getCurrentLocationWeather` up to the point where it returns. -/
def getCurrentLocationWeather (P : Platform) (st : St) : St :=
  if !P.hasGeolocation then showError P MSG_NO_GEO st
  else
    let st1 := showLoading st
    { st1 with geoPending := st1.geoPending + 1 }

/-- The success callback passed to `getCurrentPosition`. -/
def onPosition (P : Platform) (lat lon : JsNum) (st : St) : St :=
  makeWeatherRequest
    (buildWeatherUrl ["lat", numberToString P lat, "lon", numberToString P lon]) "geolocation" st

/-- The failure callback passed to `getCurrentPosition`; the codes are
`PERMISSION_DENIED = 1`, `POSITION_UNAVAILABLE = 2` and `TIMEOUT = 3`. -/
def onPositionError (P : Platform) (code : Nat) (st : St) : St :=
  let message :=
    match code with
    | 1 => MSG_GEO_DENIED
    | 2 => MSG_GEO_UNAVAILABLE
    | 3 => MSG_GEO_TIMEOUT
    | _ => MSG_GEO_DEFAULT
  showError P message (hideLoading st)

/-- Message of the `TypeError` thrown by reading `key` from a nullish `base`. -/
def typeErrorMessage (P : Platform) (base : JsValue) (key : String) : String :=
  "Cannot read properties of " ++ toStr P base ++ " (reading '" ++ key ++ "')"

/-- The `.catch` handler of `makeWeatherRequest`. -/
def catchHandler (P : Platform) (error : Failure) (st : St) : St :=
  handleApiError P error st

/-- The `.then` handler of `makeWeatherRequest` together with the `.catch`
chained after it: the log statement reads `data.name` and `data.sys.country`
before `displayWeather` is called, and an exception thrown there is passed to
the `catch` handler. -/
def thenHandler (P : Platform) (data : JsValue) (st : St) : St :=
  if isNullish data then
    catchHandler P (.error (typeErrorMessage P data "name")) st
  else if isNullish (getProp data "sys") then
    catchHandler P (.error (typeErrorMessage P (getProp data "sys") "country")) st
  else displayWeather P data st

/-- How the network call settles. -/
inductive NetworkResult where
  | success (data : JsValue)
  | failure (response : Option HttpResponse)

/-- A settled promise. -/
inductive Settled where
  | resolved (value : JsValue)
  | rejected (reason : Failure)

/-- The promise `requestPromise` once the call has settled. -/
def requestPromise : NetworkResult → Settled
  | .success data => .resolved data
  | .failure response => .rejected (.jqXHR response)

/-- The promise `timeoutPromise` once the timer has fired. -/
def timeoutPromise : Settled :=
  .rejected (.error "Request timeout")

/-- Which of the two raced promises settles first. -/
inductive First where
  | network
  | timer
  deriving DecidableEq, Repr

/-- The call `Promise.race([requestPromise, timeoutPromise])`: the promise that
settles first is passed on, the other is ignored. -/
def promiseRace (first : First) (request timeout : Settled) : Settled :=
  match first with
  | .network => request
  | .timer => timeout

/-- The continuation of `makeWeatherRequest` once its race is settled. -/
def settleRace (P : Platform) (first : First) (net : NetworkResult) (st : St) : St :=
  match promiseRace first (requestPromise net) timeoutPromise with
  | .resolved data => thenHandler P data st
  | .rejected reason => catchHandler P reason st

/-- The listener for the `error` event of `window`. -/
def windowErrorHandler (P : Platform) (st : St) : St :=
  if !st.app.isLoading then showError P MSG_UNEXPECTED st else st

/-! ## The event loop -/

/-- The `input` listener: the characters `< > " ' &` are removed. -/
def sanitize (value : String) : String :=
  String.mk (value.data.filter (fun c =>
    !(c.toNat = 60 || c.toNat = 62 || c.toNat = 34 || c.toNat = 39 || c.toNat = 38)))

/-- Events the page reacts to. -/
inductive Action where
  /-- The user edits the field so that it holds `text`. -/
  | input (text : String)
  /-- The field receives focus. -/
  | focus
  /-- The Enter key is pressed in the field. -/
  | enter
  /-- The geolocation call reports a position. -/
  | geoSuccess (lat lon : JsNum)
  /-- The geolocation call reports an error code. -/
  | geoError (code : Nat)
  /-- The race of the pending call at position `i` is settled. -/
  | settle (i : Nat) (first : First) (net : NetworkResult)
  /-- A scheduled callback that shows the weather container runs. -/
  | showTimer
  /-- An uncaught fault raises the `error` event of `window`. -/
  | uncaughtError

/-- One event. -/
def step (P : Platform) (st : St) : Action → St
  | .input text => { st with el := { st.el with cityInput := sanitize text } }
  | .focus => hideError st
  | .enter => searchWeather P st
  | .geoSuccess lat lon =>
    if st.geoPending = 0 then st
    else onPosition P lat lon { st with geoPending := st.geoPending - 1 }
  | .geoError code =>
    if st.geoPending = 0 then st
    else onPositionError P code { st with geoPending := st.geoPending - 1 }
  | .settle i first net =>
    if i < st.pending.length then
      settleRace P first net { st with pending := st.pending.eraseIdx i }
    else st
  | .showTimer =>
    if st.showTimers = 0 then st
    else { st with el := { st.el with containerShown := true }, showTimers := st.showTimers - 1 }
  | .uncaughtError => windowErrorHandler P st

/-- A sequence of events, first to last. -/
def run (P : Platform) (st : St) : List Action → St
  | [] => st
  | a :: rest => run P (step P st a) rest

/-- The state when the script has been loaded and the `ready` callback has
run, over the DOM the page starts with. -/
def pageLoad (P : Platform) (el : Elements) : St :=
  getCurrentLocationWeather P
    { app := { isLoading := false, lastSearchCity := "", requestCount := 0, errors := [] }
      el := el
      pending := []
      geoPending := 0
      showTimers := 0 }

/-- States reachable from a page load by events. -/
def Reachable (P : Platform) (el : Elements) (st : St) : Prop :=
  ∃ actions : List Action, run P (pageLoad P el) actions = st

/-- A pending city search for `city`: a call in flight whose URL is the one
`searchWeather` builds for it. -/
def cityPending (city : String) (st : St) : Prop :=
  (⟨buildWeatherUrl ["q", encodeURIComponent city], "city search"⟩ : PendingRequest) ∈ st.pending

instance (city : String) (st : St) : Decidable (cityPending city st) :=
  inferInstanceAs (Decidable (_ ∈ st.pending))

/-! ## Fixtures for concrete runs -/

/-- A browser that is online and supports geolocation. -/
def onlineBrowser : Platform :=
  { onLine := true
    hasGeolocation := true
    now := "2024-01-01T00:00:00.000Z"
    numberDigits := fun _ _ => "?"
    stringToNumber := fun _ => .nan }

/-- The same browser with the connectivity flag off. -/
def offlineBrowser : Platform :=
  { onlineBrowser with onLine := false }

/-- A page whose elements are empty and hidden. -/
def blankElements : Elements :=
  { cityInput := "", spinnerShown := false, loadingShown := false, errorShown := false
    containerShown := false, errorText := "", locationName := "", iconSrc := ""
    iconAlt := none, temperature := "", weatherDescription := "", feelsLike := ""
    humidity := "", windSpeed := "", pressure := "" }

/-- The state right after the page has loaded in `onlineBrowser`. -/
def loadedPage : St :=
  pageLoad onlineBrowser blankElements

/-- The Paris payload without its `name` field. -/
def namelessPayload : JsValue :=
  .obj [("sys", .obj [("country", .str "FR")]),
        ("main", .obj [("temp", .num (.fin 724 1)), ("feels_like", .num (.fin 701 1)),
                       ("humidity", .num (.fin 55 0)), ("pressure", .num (.fin 1013 0))]),
        ("weather", .arr [.obj [("description", .str "clear sky"), ("icon", .str "01d")]]),
        ("wind", .obj [("speed", .num (.fin 53 1))])]

/-- The Paris payload whose `main` block has neither `temp` nor `feels_like`. -/
def temperaturelessPayload : JsValue :=
  .obj [("name", .str "Paris"),
        ("sys", .obj [("country", .str "FR")]),
        ("main", .obj [("humidity", .num (.fin 55 0)), ("pressure", .num (.fin 1013 0))]),
        ("weather", .arr [.obj [("description", .str "clear sky"), ("icon", .str "01d")]]),
        ("wind", .obj [("speed", .num (.fin 53 1))])]

/-- The Paris payload without its `main` block. -/
def mainlessPayload : JsValue :=
  .obj [("name", .str "Paris"),
        ("sys", .obj [("country", .str "FR")]),
        ("weather", .arr [.obj [("description", .str "clear sky"), ("icon", .str "01d")]])]

/-- The JSON body OpenWeatherMap sends with a 404. -/
def notFoundBody : JsValue :=
  .obj [("cod", .str "404"), ("message", .str "city not found")]

/-- The page after Enter has been pressed on the empty field: the validation
message is being displayed. -/
def pageShowingError : St :=
  run onlineBrowser loadedPage [.enter]

/-- The display fields of two DOM states agree. -/
def sameDisplay (a b : Elements) : Prop :=
  a.locationName = b.locationName ∧ a.iconSrc = b.iconSrc ∧ a.iconAlt = b.iconAlt
    ∧ a.temperature = b.temperature ∧ a.weatherDescription = b.weatherDescription
    ∧ a.feelsLike = b.feelsLike ∧ a.humidity = b.humidity ∧ a.windSpeed = b.windSpeed
    ∧ a.pressure = b.pressure

instance (a b : Elements) : Decidable (sameDisplay a b) := by
  unfold sameDisplay
  infer_instance

/-- The loaded page with the single letter `A` typed into the field. -/
def pageWithOneLetter : St :=
  run onlineBrowser loadedPage [.input " A "]

/-- The page while the first search for Paris is pending. -/
def pageSearchingParis : St :=
  run onlineBrowser loadedPage [.input "Paris", .enter]

/-- The page after Paris has been submitted and then, with that request still
pending, the empty field has been submitted and rejected. -/
def pageAfterRejectedSubmission : St :=
  run onlineBrowser loadedPage [.input "Paris", .enter, .input "", .enter]

/-! ## The error classifier -/

/-- The text shown by `showError` is the message it was given. -/
theorem showError_errorText (P : Platform) (message : String) (st : St) :
    (showError P message st).el.errorText = message := rfl

/-- No entry of the status table is the offline message. -/
theorem statusMessage_ne_offline (status : Option Nat) : statusMessage status ≠ MSG_OFFLINE := by
  unfold statusMessage
  split <;> decide

/-- A failure with a truthy parsed body is the `jqXHR` of an HTTP response. -/
theorem hasHttpStatus_of_truthy_body (e : Failure) (h : truthy e.responseJSON = true) :
    e.hasHttpStatus = true := by
  cases e with
  | error m => simp [Failure.responseJSON, truthy] at h
  | jqXHR r =>
    cases r with
    | none => simp [Failure.responseJSON, truthy] at h
    | some r => rfl

/-- C1, as the code has it: for a failed request that is not a timeout and
carries an HTTP response with a truthy parsed JSON body, the message shown by
`handleApiError` is determined by the status alone, whatever the connectivity
flag and whatever the body holds: 404, 401, 429 and 500/502/503 give their
fixed messages and every other status gives the generic one. -/
theorem handleApiError_status_table (P : Platform) (r : HttpResponse) (st : St)
    (hbody : truthy r.responseJSON = true) :
    (r.status = 404 →
        (handleApiError P (.jqXHR (some r)) st).el.errorText
          = "City not found. Please check the spelling and try again.")
    ∧ (r.status = 401 →
        (handleApiError P (.jqXHR (some r)) st).el.errorText
          = "API key error. Please check your API configuration.")
    ∧ (r.status = 429 →
        (handleApiError P (.jqXHR (some r)) st).el.errorText
          = "Too many requests. Please wait a moment and try again.")
    ∧ (r.status = 500 ∨ r.status = 502 ∨ r.status = 503 →
        (handleApiError P (.jqXHR (some r)) st).el.errorText
          = "Weather service is temporarily unavailable. Please try again later.")
    ∧ (r.status ≠ 404 → r.status ≠ 401 → r.status ≠ 429 → r.status ≠ 500 →
        r.status ≠ 502 → r.status ≠ 503 →
        (handleApiError P (.jqXHR (some r)) st).el.errorText
          = "Unable to fetch weather data. Please try again later.") := by
  have key : (handleApiError P (.jqXHR (some r)) st).el.errorText = statusMessage (some r.status) := by
    simp [handleApiError, showError_errorText, apiErrorMessage, Failure.isTimeout,
      Failure.responseJSON, Failure.status, hbody]
  rw [key]
  refine ⟨?_, ?_, ?_, ?_, ?_⟩
  · intro h; rw [h]; rfl
  · intro h; rw [h]; rfl
  · intro h; rw [h]; rfl
  · rintro (h | h | h) <;> rw [h] <;> rfl
  · intro h1 h2 h3 h4 h5 h6
    unfold statusMessage
    split <;> simp_all [MSG_GENERIC]

/-- Witness for `handleApiError_status_table`: a 404 with the provider's JSON
body, while offline. -/
theorem handleApiError_status_table_witness :
    truthy notFoundBody = true
    ∧ (handleApiError offlineBrowser (.jqXHR (some ⟨404, notFoundBody⟩)) loadedPage).el.errorText
        = "City not found. Please check the spelling and try again." :=
  ⟨rfl, (handleApiError_status_table offlineBrowser ⟨404, notFoundBody⟩ loadedPage rfl).1 rfl⟩

/-- C1 as stated fails: a 404 that is not a timeout and whose body was not
parsed as JSON gets the generic message, not the one of the table. -/
theorem handleApiError_404_without_body :
    Failure.isTimeout (.jqXHR (some ⟨404, .undefined⟩)) = false
    ∧ Failure.hasHttpStatus (.jqXHR (some ⟨404, .undefined⟩)) = true
    ∧ (handleApiError onlineBrowser (.jqXHR (some ⟨404, .undefined⟩)) loadedPage).el.errorText
        = "Unable to fetch weather data. Please try again later."
    ∧ (handleApiError onlineBrowser (.jqXHR (some ⟨404, .undefined⟩)) loadedPage).el.errorText
        ≠ "City not found. Please check the spelling and try again." := by
  decide

/-- C8, as the code has it: `handleApiError` shows the offline message exactly
when the failure is not a timeout, carries no truthy parsed JSON body, and
`navigator.onLine` is false.  Hence every failure with no timeout signal and no
HTTP status gets it while offline, and no failure with a truthy parsed body
gets it. -/
theorem handleApiError_offline_iff (P : Platform) (e : Failure) (st : St) :
    ((handleApiError P e st).el.errorText
        = "No internet connection. Please check your network and try again."
      ↔ (e.isTimeout = false ∧ truthy e.responseJSON = false ∧ P.onLine = false))
    ∧ (e.isTimeout = false → e.hasHttpStatus = false → P.onLine = false →
        (handleApiError P e st).el.errorText
          = "No internet connection. Please check your network and try again.")
    ∧ (truthy e.responseJSON = true →
        (handleApiError P e st).el.errorText
          ≠ "No internet connection. Please check your network and try again.") := by
  have hoff : MSG_OFFLINE = "No internet connection. Please check your network and try again." := rfl
  have key : (handleApiError P e st).el.errorText = MSG_OFFLINE
      ↔ (e.isTimeout = false ∧ truthy e.responseJSON = false ∧ P.onLine = false) := by
    have t1 : MSG_TIMEOUT ≠ MSG_OFFLINE := by decide
    have t2 : MSG_GENERIC ≠ MSG_OFFLINE := by decide
    have t3 := statusMessage_ne_offline e.status
    simp only [handleApiError, showError_errorText, apiErrorMessage]
    cases h1 : e.isTimeout <;> cases h2 : truthy e.responseJSON <;> cases h3 : P.onLine <;>
      simp [t1, t2, t3]
  rw [← hoff]
  refine ⟨key, ?_, ?_⟩
  · intro ht hs ho
    refine key.2 ⟨ht, ?_, ho⟩
    by_contra hb
    have := hasHttpStatus_of_truthy_body e (by simpa using hb)
    simp [hs] at this
  · intro hb h
    have := (key.1 h).2.1
    simp [hb] at this

/-- Witness for `handleApiError_offline_iff`: a call that got no HTTP response
while offline. -/
theorem handleApiError_offline_iff_witness :
    (handleApiError offlineBrowser (.jqXHR none) loadedPage).el.errorText
      = "No internet connection. Please check your network and try again." :=
  (handleApiError_offline_iff offlineBrowser (.jqXHR none) loadedPage).2.1 rfl rfl rfl

/-- C8 as stated fails: a failure that carries HTTP status 503, with a body
that was not parsed as JSON, gets the offline message when the connectivity
flag is off. -/
theorem handleApiError_offline_with_status :
    Failure.hasHttpStatus (.jqXHR (some ⟨503, .undefined⟩)) = true
    ∧ Failure.status (.jqXHR (some ⟨503, .undefined⟩)) = some 503
    ∧ (handleApiError offlineBrowser (.jqXHR (some ⟨503, .undefined⟩)) loadedPage).el.errorText
        = "No internet connection. Please check your network and try again." := by
  decide

/-! ## The race against the timer -/

/-- C6: when the timer settles first, the request ends in exactly the timeout
failure, whatever the network call settles with: the state is the one
`showError` produces for the timeout message, and it does not depend on the
network result. -/
theorem settleRace_timer_first (P : Platform) (net : NetworkResult) (st : St) :
    settleRace P .timer net st
        = showError P "Request timed out. Please check your internet connection and try again." st
    ∧ (settleRace P .timer net st).el.errorText
        = "Request timed out. Please check your internet connection and try again."
    ∧ ∀ late : NetworkResult, settleRace P .timer late st = settleRace P .timer net st :=
  ⟨rfl, rfl, fun _ => rfl⟩

/-! ## The top-level error listener -/

/-- C10 on the code: with another error message on display (and the loading
flag therefore off) an uncaught fault is not suppressed, the message is
replaced and a second entry is appended to the log; with no error on display
but a request loading, the fault is dropped. -/
theorem windowErrorHandler_gates_on_loading :
    pageShowingError.el.errorShown = true
    ∧ pageShowingError.el.errorText = "Please enter a city name"
    ∧ pageShowingError.app.errors.length = 1
    ∧ (step onlineBrowser pageShowingError .uncaughtError).el.errorText
        = "An unexpected error occurred. Please refresh the page."
    ∧ (step onlineBrowser pageShowingError .uncaughtError).app.errors.length = 2
    ∧ loadedPage.el.errorShown = false
    ∧ loadedPage.app.isLoading = true
    ∧ step onlineBrowser loadedPage .uncaughtError = loadedPage := by
  decide

/-! ## The URL of a city search -/

/-- C4 on the code: for the city `New York` the name is escaped twice, once by
`encodeURIComponent` and once more by the query serialiser, so the `q` value in
the URL is `New%2520York`, which decodes once to `New%20York`, not to the
name. -/
theorem buildWeatherUrl_new_york :
    encodeURIComponent "New York" = "New%20York"
    ∧ formEncode "New%20York" = "New%2520York"
    ∧ buildWeatherUrl ["q", encodeURIComponent "New York"]
        = "https://api.openweathermap.org/data/2.5/weather?q=New%2520York&units=imperial&appid=6e96f2d6545ae9c1f6c3fb8856b238a6" := by
  decide

/-! ## Malformed payloads -/

/-- Reporting an error leaves the display fields alone. -/
theorem showError_sameDisplay (P : Platform) (message : String) (st : St) :
    sameDisplay (showError P message st).el st.el :=
  ⟨rfl, rfl, rfl, rfl, rfl, rfl, rfl, rfl, rfl⟩

/-- A payload whose `main` block or first weather entry is falsy does not pass
the guard of `displayWeather`. -/
theorem not_passesValidation (data : JsValue)
    (h : truthy (getProp data "main") = false
      ∨ truthy (getProp (getProp data "weather") "0") = false) :
    passesValidation data = false := by
  unfold passesValidation
  rcases h with h | h <;> simp [h]

/-- What `displayWeather` does when the `try` block throws. -/
theorem displayWeather_of_not_valid (P : Platform) (data : JsValue) (st : St)
    (h : passesValidation data = false ∨ isNullish (getProp data "sys") = true) :
    displayWeather P data st = showError P MSG_DISPLAY (hideError (hideLoading st)) := by
  unfold displayWeather
  rcases h with h | h
  · simp [h]
  · by_cases hv : passesValidation data = true
    · simp [hv, h]
    · simp [hv]

/-- C2, as the code has it: when the `main` block or the first weather entry of
a payload delivered by a successful call is absent, the success path writes no
display field, schedules no reveal of the weather container, and shows an
error; the error is the display-error message whenever the payload carries a
`sys` block. -/
theorem success_path_malformed (P : Platform) (data : JsValue) (st : St)
    (h : truthy (getProp data "main") = false
      ∨ truthy (getProp (getProp data "weather") "0") = false) :
    sameDisplay (settleRace P .network (.success data) st).el st.el
    ∧ (settleRace P .network (.success data) st).showTimers = st.showTimers
    ∧ (settleRace P .network (.success data) st).el.errorShown = true
    ∧ (settleRace P .network (.success data) st).el.containerShown = false
    ∧ (isNullish data = false → isNullish (getProp data "sys") = false →
        (settleRace P .network (.success data) st).el.errorText
          = "Error displaying weather information. Please try again.") := by
  have hv := not_passesValidation data h
  have hd := displayWeather_of_not_valid P data st (Or.inl hv)
  have hs : settleRace P .network (.success data) st = thenHandler P data st := rfl
  rw [hs]
  unfold thenHandler
  by_cases h1 : isNullish data = true
  · simp only [h1, if_true, catchHandler, handleApiError]
    exact ⟨showError_sameDisplay _ _ _, rfl, rfl, rfl, by simp⟩
  · by_cases h2 : isNullish (getProp data "sys") = true
    · simp only [h1, h2, if_true, catchHandler, handleApiError]
      exact ⟨showError_sameDisplay _ _ _, rfl, rfl, rfl, by simp⟩
    · simp only [h1, h2, hd]
      exact ⟨showError_sameDisplay _ _ _, rfl, rfl, rfl, fun _ _ => rfl⟩

/-- Witness for `success_path_malformed`: the Paris payload without `main`. -/
theorem success_path_malformed_witness :
    truthy (getProp mainlessPayload "main") = false
    ∧ (settleRace onlineBrowser .network (.success mainlessPayload) loadedPage).el.errorText
        = "Error displaying weather information. Please try again." :=
  ⟨rfl, (success_path_malformed onlineBrowser mainlessPayload loadedPage (Or.inl rfl)).2.2.2.2
    rfl rfl⟩

/-- C2 as stated fails: a payload without `name` goes through the success path
without any error, and the display fields are written, the location reading
`undefined, FR`. -/
theorem success_path_nameless :
    getProp namelessPayload "name" = .undefined
    ∧ (settleRace onlineBrowser .network (.success namelessPayload) loadedPage).el.locationName
        = "undefined, FR"
    ∧ (settleRace onlineBrowser .network (.success namelessPayload) loadedPage).el.temperature
        = "72°F"
    ∧ (settleRace onlineBrowser .network (.success namelessPayload) loadedPage).el.errorShown
        = false
    ∧ (settleRace onlineBrowser .network (.success namelessPayload) loadedPage).app.errors = [] := by
  refine ⟨rfl, ?_, ?_, ?_, ?_⟩ <;> decide

/-- C9, as the code has it: a payload is rendered by `displayWeather` only if
its weather list, its first weather entry, its `main` block and its `sys`
block are present; when one of them is missing the display fields are left as
they were and the display-error message is shown.  Nothing is required of the
numeric fields inside `main`. -/
theorem displayWeather_rendered_only_if_valid (P : Platform) (data : JsValue) (st : St)
    (h : truthy data = false ∨ truthy (getProp data "weather") = false
      ∨ truthy (getProp (getProp data "weather") "0") = false
      ∨ truthy (getProp data "main") = false ∨ isNullish (getProp data "sys") = true) :
    sameDisplay (displayWeather P data st).el st.el
    ∧ (displayWeather P data st).showTimers = st.showTimers
    ∧ (displayWeather P data st).el.errorShown = true
    ∧ (displayWeather P data st).el.errorText
        = "Error displaying weather information. Please try again." := by
  have hd : displayWeather P data st = showError P MSG_DISPLAY (hideError (hideLoading st)) := by
    apply displayWeather_of_not_valid
    rcases h with h | h | h | h | h
    · left; simp [passesValidation, h]
    · left; simp [passesValidation, h]
    · left; simp [passesValidation, h]
    · left; simp [passesValidation, h]
    · right; exact h
  rw [hd]
  exact ⟨showError_sameDisplay _ _ _, rfl, rfl, rfl⟩

/-- Witness for `displayWeather_rendered_only_if_valid`: the Paris payload
without `main`. -/
theorem displayWeather_rendered_only_if_valid_witness :
    truthy (getProp mainlessPayload "main") = false
    ∧ (displayWeather onlineBrowser mainlessPayload loadedPage).el.errorText
        = "Error displaying weather information. Please try again." :=
  ⟨rfl, (displayWeather_rendered_only_if_valid onlineBrowser mainlessPayload loadedPage
    (Or.inr (Or.inr (Or.inr (Or.inl rfl))))).2.2.2⟩

/-- C9 as stated fails: a payload whose `main` block lacks `temp` and
`feels_like` passes the guard and is rendered, the temperature fields reading
`NaN°F`. -/
theorem displayWeather_renders_nan :
    passesValidation temperaturelessPayload = true
    ∧ getProp (getProp temperaturelessPayload "main") "temp" = .undefined
    ∧ (displayWeather onlineBrowser temperaturelessPayload loadedPage).el.temperature = "NaN°F"
    ∧ (displayWeather onlineBrowser temperaturelessPayload loadedPage).el.feelsLike = "NaN°F"
    ∧ (displayWeather onlineBrowser temperaturelessPayload loadedPage).el.errorShown = false := by
  refine ⟨rfl, rfl, ?_, ?_, ?_⟩ <;> decide


/-- Only the empty string has length zero. -/
theorem jsLength_eq_zero (s : String) : jsLength s = 0 ↔ s = "" := by
  rcases s with ⟨l⟩
  cases l with
  | nil => simp [jsLength]
  | cons c l =>
    simp only [jsLength, List.map_cons, List.sum_cons]
    constructor
    · intro h
      split at h <;> omega
    · intro h
      exact absurd h (by simp [String.ext_iff])


/-! ## Submitting a city -/

/-- C5: `searchWeather` rejects an input whose trimmed form is empty, has
length 1, or is longer than 100 with the corresponding validation message,
issuing no network call and leaving `lastSearchCity` and `requestCount` as
they were; for a trimmed length in `[2, 100]` no message is shown or logged. -/
theorem searchWeather_validation (P : Platform) (st : St) (city : String)
    (hcity : jsTrim st.el.cityInput = city) :
    (jsLength city = 0 → searchWeather P st = showError P "Please enter a city name" st)
    ∧ (jsLength city = 1 →
        searchWeather P st = showError P "City name must be at least 2 characters long" st)
    ∧ (100 < jsLength city → searchWeather P st = showError P "City name is too long" st)
    ∧ (jsLength city < 2 ∨ 100 < jsLength city →
        (searchWeather P st).pending = st.pending
        ∧ (searchWeather P st).app.lastSearchCity = st.app.lastSearchCity
        ∧ (searchWeather P st).app.requestCount = st.app.requestCount
        ∧ (searchWeather P st).el.errorShown = true
        ∧ (searchWeather P st).app.errors.length = st.app.errors.length + 1)
    ∧ (2 ≤ jsLength city → jsLength city ≤ 100 →
        (searchWeather P st).app.errors = st.app.errors
        ∧ (searchWeather P st).el.errorText = st.el.errorText
        ∧ ((searchWeather P st).el.errorShown = true → st.el.errorShown = true)) := by
  have h0 : jsLength city = 0 → searchWeather P st = showError P MSG_EMPTY st := by
    intro h
    have : city = "" := (jsLength_eq_zero city).1 h
    simp [searchWeather, hcity, this]
  have h1 : jsLength city = 1 → searchWeather P st = showError P MSG_TOO_SHORT st := by
    intro h
    have hne : city ≠ "" := fun hc => by
      rw [(jsLength_eq_zero city).2 hc] at h
      exact absurd h (by decide)
    simp [searchWeather, hcity, hne, h]
  have h2 : 100 < jsLength city → searchWeather P st = showError P MSG_TOO_LONG st := by
    intro h
    have hne : city ≠ "" := fun hc => by
      rw [(jsLength_eq_zero city).2 hc] at h
      exact absurd h (by decide)
    have h' : ¬ jsLength city < 2 := by omega
    simp [searchWeather, hcity, hne, h', h]
  refine ⟨h0, h1, h2, ?_, ?_⟩
  · intro h
    have hcases : jsLength city = 0 ∨ jsLength city = 1 ∨ 100 < jsLength city := by omega
    rcases hcases with h | h | h
    · rw [h0 h]; simp [showError, hideLoading]
    · rw [h1 h]; simp [showError, hideLoading]
    · rw [h2 h]; simp [showError, hideLoading]
  · intro hlo hhi
    have hne : city ≠ "" := fun hc => by
      rw [(jsLength_eq_zero city).2 hc] at hlo
      exact absurd hlo (by decide)
    have h' : ¬ jsLength city < 2 := by omega
    have h'' : ¬ jsLength city > 100 := by omega
    by_cases hdup : (decide (city = st.app.lastSearchCity) && st.app.isLoading) = true
    · have : searchWeather P st = st := by
        simp only [searchWeather, hcity, hne, h', h'', if_false, hdup, if_true]
      rw [this]
      exact ⟨rfl, rfl, id⟩
    · simp only [searchWeather, hcity, hne, h', h'', if_false, hdup]
      refine ⟨rfl, rfl, ?_⟩
      intro h
      simp [makeWeatherRequest, showLoading] at h

/-- Witness for `searchWeather_validation`: the one-letter query. -/
theorem searchWeather_validation_witness :
    jsTrim pageWithOneLetter.el.cityInput = "A"
    ∧ searchWeather onlineBrowser pageWithOneLetter
        = showError onlineBrowser "City name must be at least 2 characters long" pageWithOneLetter :=
  ⟨by decide,
    (searchWeather_validation onlineBrowser pageWithOneLetter "A" (by decide)).2.1 (by decide)⟩

/-- C3, as the code has it: in every state in which the loading flag is set and
`lastSearchCity` is the valid city `c`, a further submission of `c` is
suppressed: `searchWeather` leaves the whole state as it is, so no request is
issued, nothing is shown or logged, and `lastSearchCity`, `requestCount` and
the loading flag are unchanged. -/
theorem searchWeather_duplicate_suppressed (P : Platform) (st : St) (c : String)
    (hinput : jsTrim st.el.cityInput = c) (hlo : 2 ≤ jsLength c) (hhi : jsLength c ≤ 100)
    (hlast : st.app.lastSearchCity = c) (hloading : st.app.isLoading = true) :
    searchWeather P st = st := by
  have hne : c ≠ "" := fun hc => by
    rw [(jsLength_eq_zero c).2 hc] at hlo
    exact absurd hlo (by decide)
  have h1 : ¬ jsLength c < 2 := by omega
  have h2 : ¬ jsLength c > 100 := by omega
  simp [searchWeather, hinput, hne, h1, h2, hlast, hloading]

/-- Witness for `searchWeather_duplicate_suppressed`: Enter pressed again
while the search for Paris is loading. -/
theorem searchWeather_duplicate_suppressed_witness :
    cityPending "Paris" pageSearchingParis
    ∧ searchWeather onlineBrowser pageSearchingParis = pageSearchingParis :=
  ⟨by decide,
    searchWeather_duplicate_suppressed onlineBrowser pageSearchingParis "Paris"
      (by decide) (by decide) (by decide) (by decide) (by decide)⟩

/-- C3 as stated fails: in a reachable state in which the request for Paris is
still pending, submitting Paris again issues a second network call for Paris
and increments `requestCount`. -/
theorem searchWeather_duplicate_issued :
    Reachable onlineBrowser blankElements pageAfterRejectedSubmission
    ∧ cityPending "Paris" pageAfterRejectedSubmission
    ∧ pageAfterRejectedSubmission.pending.length = 1
    ∧ pageAfterRejectedSubmission.app.requestCount = 1
    ∧ (run onlineBrowser pageAfterRejectedSubmission [.input "Paris", .enter]).pending
        = [⟨buildWeatherUrl ["q", encodeURIComponent "Paris"], "city search"⟩,
           ⟨buildWeatherUrl ["q", encodeURIComponent "Paris"], "city search"⟩]
    ∧ (run onlineBrowser pageAfterRejectedSubmission [.input "Paris", .enter]).app.requestCount
        = 2 := by
  refine ⟨⟨_, rfl⟩, ?_, ?_, ?_, ?_, ?_⟩ <;> decide

/-! ## Formatting of the display fields -/

end WeatherGlobe
